import Mathlib

/-!
Verification development for the SAML authentication provider of the
repository (the `SAMLAuthenticationProvider` class). The provider logic is
embedded shallowly: each async method becomes a pure Lean function over an
explicit environment `Env` of external collaborators (backing-store client,
token service, user resolution, redirect capability, base-path resolver),
where a collaborator call that may throw is modelled as `Except Err`.
JavaScript string truthiness (empty string and `undefined` both falsy) is
modelled by `strTruthy` on `Option String`.
-/

namespace Saml

/-- JS truthiness for an optional string field: `undefined`/`null` and the
empty string are falsy, every other string is truthy. -/
def strTruthy : Option String → Bool
  | none => false
  | some s => !s.isEmpty

/-- A pair of access and refresh tokens (`TokenPair` from the tokens module). -/
structure TokenPair where
  accessToken : String
  refreshToken : String
deriving Repr, DecidableEq

/-- `ProviderState`: the state supported by the provider, a partial token
pair plus the SAML handshake correlation fields. Absent fields are `none`;
fields may also hold the empty string, which JS treats as falsy. -/
structure ProviderState where
  accessToken : Option String := none
  refreshToken : Option String := none
  requestId : Option String := none
  nextURL : Option String := none
deriving Repr, DecidableEq

/-- The parts of `KibanaRequest` the provider reads: the `authorization`
header, the `SAMLRequest` query parameter, the URL path and the URL search
(query) string. -/
structure KibanaRequest where
  authorizationHeader : Option String := none
  samlRequestQuery : Option String := none
  urlPath : String := "/"
  urlSearch : String := ""
deriving Repr, DecidableEq

/-- `isSAMLRequestQuery`: whether the request query includes a (truthy)
`SAMLRequest` parameter. -/
def isSAMLRequestQuery (req : KibanaRequest) : Bool :=
  strTruthy req.samlRequestQuery

/-- Errors thrown by collaborators or constructed by the provider.
`badRequest` is `Boom.badRequest`; `expiredAccessToken` is an
Elasticsearch error that the token service recognises as an expired access
token; `other` is any other error. -/
inductive Err where
  | badRequest (message : String)
  | expiredAccessToken (message : String)
  | other (message : String)
deriving Repr, DecidableEq

/-- Modelled from the spec: `Tokens.isAccessTokenExpiredError` (the tokens
module is not part of the provider source): detects whether a failure is the
distinguished expired-access-token error. -/
def isAccessTokenExpiredError : Err → Bool
  | .expiredAccessToken _ => true
  | _ => false

/-- The authentication realm of a user (`authentication_realm`). -/
structure AuthenticationRealm where
  name : String
deriving Repr, DecidableEq

/-- `AuthenticatedUser`: the fields the provider interprets. -/
structure AuthenticatedUser where
  username : String
  authentication_realm : AuthenticationRealm
deriving Repr, DecidableEq

/-- Modelled from the spec: `AuthenticationResult`, a tagged outcome
`notHandled | succeeded | redirectTo | failed` carrying optional user,
auth headers and state update. -/
inductive AuthenticationResult where
  | notHandled
  | succeeded (user : AuthenticatedUser) (authHeaders : Option String)
      (state : Option ProviderState)
  | redirectTo (url : String) (state : Option ProviderState)
  | failed (error : Err)
deriving Repr, DecidableEq

namespace AuthenticationResult

/-- The `notHandled()` predicate of `AuthenticationResult`. -/
def isNotHandled : AuthenticationResult → Bool
  | .notHandled => true
  | _ => false

/-- The `succeeded()` predicate of `AuthenticationResult`. -/
def isSucceeded : AuthenticationResult → Bool
  | .succeeded _ _ _ => true
  | _ => false

/-- The `redirected()` predicate of `AuthenticationResult`. -/
def isRedirected : AuthenticationResult → Bool
  | .redirectTo _ _ => true
  | _ => false

/-- The `failed()` predicate of `AuthenticationResult`. -/
def isFailed : AuthenticationResult → Bool
  | .failed _ => true
  | _ => false

/-- The `user` accessor of `AuthenticationResult` (`undefined` ↦ `none`). -/
def userOf : AuthenticationResult → Option AuthenticatedUser
  | .succeeded u _ _ => some u
  | _ => none

/-- The `state` accessor of `AuthenticationResult` (`undefined` ↦ `none`). -/
def stateOf : AuthenticationResult → Option ProviderState
  | .succeeded _ _ st => st
  | .redirectTo _ st => st
  | _ => none

/-- The `error` accessor of `AuthenticationResult` (`undefined` ↦ `none`). -/
def errorOf : AuthenticationResult → Option Err
  | .failed e => some e
  | _ => none

/-- Modelled from the spec: `shouldUpdateState()`: the result carries a
state update that the caller must persist. -/
def shouldUpdateState (r : AuthenticationResult) : Bool :=
  r.stateOf.isSome

/-- `failed() && Tokens.isAccessTokenExpiredError(error)`: the guard of the
refresh stage in `authenticate`. -/
def isExpiredFailure : AuthenticationResult → Bool
  | .failed e => isAccessTokenExpiredError e
  | _ => false

/-- Whether the result is a `failed` carrying a `Boom.badRequest` error. -/
def isBadRequestFailure : AuthenticationResult → Bool
  | .failed (.badRequest _) => true
  | _ => false

end AuthenticationResult

/-- Modelled from the spec: `DeauthenticationResult`, the tagged outcome of
`logout`: `notHandled | redirectTo(url) | failed(error)`. -/
inductive DeauthenticationResult where
  | notHandled
  | redirectTo (url : String)
  | failed (error : Err)
deriving Repr, DecidableEq

/-- The `{realm}`-or-`{acs}` payload sent to `shield.samlPrepare` and
`shield.samlInvalidate`. -/
inductive RealmOrACS where
  | realm (name : String)
  | acs (url : String)
deriving Repr, DecidableEq

/-- The response of `shield.samlPrepare`: `{id, redirect}`. -/
structure SamlPrepareResult where
  id : String
  redirect : String
deriving Repr, DecidableEq

/-- The environment of external collaborators the provider calls into.
Each call that may throw is an `Except Err`; the configuration fields
(`realm`, `serverBaseURL`) and pure collaborators (`canRedirectRequest`,
`basePath`) are plain functions. `getUser` receives the optional
authorization-header override the provider passes. -/
structure Env where
  getUser : KibanaRequest → Option String → Except Err AuthenticatedUser
  samlAuthenticate : List String → String → Except Err TokenPair
  samlPrepare : RealmOrACS → Except Err SamlPrepareResult
  samlLogout : String → String → Except Err (Option String)
  samlInvalidate : String → RealmOrACS → Except Err (Option String)
  refresh : String → Except Err (Option TokenPair)
  invalidate : TokenPair → Except Err Unit
  canRedirectRequest : KibanaRequest → Bool
  basePath : KibanaRequest → String
  serverBaseURL : String
  realm : Option String := none

/-- `getACS`: the assertion-consumer-service URL built from the server base
URL and the base path. -/
def getACS (env : Env) (req : KibanaRequest) : String :=
  env.serverBaseURL ++ env.basePath req ++ "/api/security/v1/saml"

/-- The payload preferring the configured realm name and falling back to
the ACS URL (used by both `authenticateViaHandshake` and
`performIdPInitiatedSingleLogout`). -/
def realmOrACSPayload (env : Env) (req : KibanaRequest) : RealmOrACS :=
  if strTruthy env.realm then .realm (env.realm.getD "")
  else .acs (getACS env req)

/-- `authenticateViaHeader`: checks the `Authorization` header; returns the
authentication result together with the `headerNotRecognized` flag. The
scheme word is the prefix of the header before the first whitespace
character (`authorization.split(whitespace)[0]`), compared to `bearer`
case-insensitively. -/
def authenticateViaHeader (env : Env) (req : KibanaRequest) :
    AuthenticationResult × Bool :=
  if !strTruthy req.authorizationHeader then (.notHandled, false)
  else
    let authorization := req.authorizationHeader.getD ""
    let authenticationSchema := authorization.takeWhile (fun c => !c.isWhitespace)
    if authenticationSchema.toLower ≠ "bearer" then (.notHandled, true)
    else
      match env.getUser req none with
      | .ok user => (.succeeded user none none, false)
      | .error err => (.failed err, false)

/-- `authenticateViaState`: exchanges the stored access token for a user via
`getUser` with a `Bearer` authorization header. -/
def authenticateViaState (env : Env) (req : KibanaRequest)
    (state : ProviderState) : AuthenticationResult :=
  if !strTruthy state.accessToken then .notHandled
  else
    let authHeaders := "Bearer " ++ state.accessToken.getD ""
    match env.getUser req (some authHeaders) with
    | .ok user => .succeeded user (some authHeaders) none
    | .error err => .failed err

/-- `authenticateViaHandshake`: initiates the SAML handshake by calling
`shield.samlPrepare`, unless the request cannot be redirected. -/
def authenticateViaHandshake (env : Env) (req : KibanaRequest) :
    AuthenticationResult :=
  if !env.canRedirectRequest req then .notHandled
  else
    match env.samlPrepare (realmOrACSPayload env req) with
    | .ok res =>
        .redirectTo res.redirect
          (some { requestId := some res.id,
                  nextURL := some (env.basePath req ++ req.urlPath) })
    | .error err => .failed err

/-- `authenticateViaRefreshToken`: refreshes the stored refresh token; a
`null` refresh result (both tokens expired) re-initiates the handshake for
redirectable requests and fails with `badRequest` otherwise. -/
def authenticateViaRefreshToken (env : Env) (req : KibanaRequest)
    (state : ProviderState) : AuthenticationResult :=
  if !strTruthy state.refreshToken then .notHandled
  else
    match env.refresh (state.refreshToken.getD "") with
    | .error err => .failed err
    | .ok none =>
        if env.canRedirectRequest req then authenticateViaHandshake env req
        else .failed (.badRequest "Both access and refresh tokens are expired.")
    | .ok (some refreshedTokenPair) =>
        let authHeaders := "Bearer " ++ refreshedTokenPair.accessToken
        match env.getUser req (some authHeaders) with
        | .ok user =>
            .succeeded user (some authHeaders)
              (some { accessToken := some refreshedTokenPair.accessToken,
                      refreshToken := some refreshedTokenPair.refreshToken })
        | .error err => .failed err

/-- `authenticate`: the ordered resolution chain header → state → refresh →
handshake, with the `headerNotRecognized` short-circuit and the
expired-access-token gate before the refresh stage. -/
def authenticate (env : Env) (req : KibanaRequest)
    (state : Option ProviderState) : AuthenticationResult :=
  let hdr := authenticateViaHeader env req
  if hdr.2 then hdr.1
  else
    let authenticationResult :=
      match state with
      | some s =>
          if hdr.1.isNotHandled then
            let viaState := authenticateViaState env req s
            if viaState.isExpiredFailure then
              authenticateViaRefreshToken env req s
            else viaState
          else hdr.1
      | none => hdr.1
    if authenticationResult.isNotHandled then authenticateViaHandshake env req
    else authenticationResult

/-- `loginWithSAMLResponse`: validates the handshake correlation pair when a
state is present, exchanges the assertion via `shield.samlAuthenticate`,
and on success redirects to the stored `nextURL` (or the default root)
with a state holding exactly the new token pair. -/
def loginWithSAMLResponse (env : Env) (req : KibanaRequest)
    (samlResponse : String) (state : Option ProviderState) :
    AuthenticationResult :=
  let stateRequestId := (state.getD {}).requestId.getD ""
  let stateRedirectURL := (state.getD {}).nextURL.getD ""
  if state.isSome ∧ (stateRequestId.isEmpty ∨ stateRedirectURL.isEmpty) then
    .failed (.badRequest
      "SAML response state does not have corresponding request id or redirect URL.")
  else
    match env.samlAuthenticate
        (if stateRequestId.isEmpty then [] else [stateRequestId]) samlResponse with
    | .ok pair =>
        .redirectTo
          (if stateRedirectURL.isEmpty then env.basePath req ++ "/"
           else stateRedirectURL)
          (some { accessToken := some pair.accessToken,
                  refreshToken := some pair.refreshToken })
    | .error err => .failed err

/-- `loginWithNewSAMLResponse`: reconciles a fresh assertion against an
existing valid session: exchange the assertion without the old state,
resolve the user behind the new tokens, invalidate the old token pair, and
either warn about an overwritten session (user mismatch) or return the
plain exchange result (same user). -/
def loginWithNewSAMLResponse (env : Env) (req : KibanaRequest)
    (samlResponse : String) (existingState : ProviderState)
    (user : AuthenticatedUser) : AuthenticationResult :=
  let payloadAuthenticationResult := loginWithSAMLResponse env req samlResponse none
  if payloadAuthenticationResult.isFailed then payloadAuthenticationResult
  else if !payloadAuthenticationResult.shouldUpdateState then
    .failed (.other "Login with SAML payload did not produce access and refresh tokens.")
  else
    let newState := payloadAuthenticationResult.stateOf.getD {}
    let newUserAuthenticationResult := authenticateViaState env req newState
    if newUserAuthenticationResult.isFailed then newUserAuthenticationResult
    else
      match newUserAuthenticationResult.userOf with
      | none =>
          .failed (.other
            "Could not retrieve user information using tokens produced for the SAML payload.")
      | some newUser =>
          match env.invalidate
              { accessToken := existingState.accessToken.getD "",
                refreshToken := existingState.refreshToken.getD "" } with
          | .error err => .failed err
          | .ok _ =>
              if newUser.username ≠ user.username ∨
                  newUser.authentication_realm.name ≠ user.authentication_realm.name then
                .redirectTo (env.basePath req ++ "/overwritten_session")
                  (some newState)
              else payloadAuthenticationResult

/-- `login`: authenticates via the existing state first; a not-handled
result means a fresh login with the assertion, a success means
reconciliation via `loginWithNewSAMLResponse`, and any other result is
returned unchanged. -/
def login (env : Env) (req : KibanaRequest) (samlResponse : String)
    (state : Option ProviderState) : AuthenticationResult :=
  let authenticationResult :=
    match state with
    | some s => authenticateViaState env req s
    | none => .notHandled
  if authenticationResult.isNotHandled then
    loginWithSAMLResponse env req samlResponse state
  else
    match authenticationResult with
    | .succeeded user _ st =>
        loginWithNewSAMLResponse env req samlResponse
          ((st <|> state).getD {}) user
    | r => r

/-- `performUserInitiatedSingleLogout`: calls `shield.samlLogout` with the
token pair; returns the optional redirect URL from the identity provider. -/
def performUserInitiatedSingleLogout (env : Env) (accessToken refreshToken : String) :
    Except Err (Option String) :=
  env.samlLogout accessToken refreshToken

/-- `performIdPInitiatedSingleLogout`: calls `shield.samlInvalidate` with
the query string stripped of its leading separator and the realm-or-ACS
payload; returns the optional redirect URL. -/
def performIdPInitiatedSingleLogout (env : Env) (req : KibanaRequest) :
    Except Err (Option String) :=
  env.samlInvalidate
    (if req.urlSearch.isEmpty then "" else req.urlSearch.drop 1)
    (realmOrACSPayload env req)

/-- The single-logout dispatch inside `logout`: the IdP-initiated path when
the query carries `SAMLRequest`, the user-initiated path with the state
token pair otherwise. -/
def logoutRedirect (env : Env) (req : KibanaRequest)
    (state : Option ProviderState) : Except Err (Option String) :=
  if isSAMLRequestQuery req then performIdPInitiatedSingleLogout env req
  else
    performUserInitiatedSingleLogout env
      ((state.getD {}).accessToken.getD "") ((state.getD {}).refreshToken.getD "")

/-- The guard of `logout`: `(!state || !state.accessToken) &&
!isSAMLRequestQuery(request.query)` — there is neither an access token nor
a SAML session to invalidate. -/
def hasNothingToInvalidate (req : KibanaRequest) (state : Option ProviderState) : Bool :=
  (match state with
   | none => true
   | some s => !strTruthy s.accessToken) && !isSAMLRequestQuery req

/-- `logout`: not-handled when there is neither an access token nor a
`SAMLRequest` query; otherwise runs the single-logout dispatch, redirects
to a non-null redirect URL or to the fixed logged-out page, and converts a
thrown error into a failed result. -/
def logout (env : Env) (req : KibanaRequest) (state : Option ProviderState) :
    DeauthenticationResult :=
  if hasNothingToInvalidate req state then
    .notHandled
  else
    match logoutRedirect env req state with
    | .ok (some redirect) => .redirectTo redirect
    | .ok none => .redirectTo "/logged_out"
    | .error err => .failed err

/-! Concrete fixtures used by witnesses and counterexamples. -/

/-- A sample user. -/
def sampleUser : AuthenticatedUser := ⟨"alice", ⟨"realm1"⟩⟩

/-- Another sample user, differing from `sampleUser` by username. -/
def otherUser : AuthenticatedUser := ⟨"bob", ⟨"realm1"⟩⟩

/-- A request with no authorization header and no SAML query. -/
def req0 : KibanaRequest := {}

/-- A request with an upper-case bearer authorization header. -/
def reqBearer : KibanaRequest := { authorizationHeader := some "BEARER tok" }

/-- A request with a `Basic` authorization header. -/
def reqBasic : KibanaRequest := { authorizationHeader := some "Basic xyz" }

/-- An environment in which every collaborator call succeeds. -/
def baseEnv : Env where
  getUser := fun _ _ => .ok sampleUser
  samlAuthenticate := fun _ _ => .ok ⟨"newAT", "newRT"⟩
  samlPrepare := fun _ => .ok ⟨"prep-id", "https://idp/sso"⟩
  samlLogout := fun _ _ => .ok (some "https://idp/slo")
  samlInvalidate := fun _ _ => .ok none
  refresh := fun _ => .ok (some ⟨"rAT", "rRT"⟩)
  invalidate := fun _ => .ok ()
  canRedirectRequest := fun _ => true
  basePath := fun _ => "/bp"
  serverBaseURL := "https://kbn"

/-- A `getUser` that succeeds without an authorization override (header
path) and fails with an expired-access-token error with one (state path). -/
def expiredStateGetUser : KibanaRequest → Option String → Except Err AuthenticatedUser :=
  fun _ h => if h.isSome then .error (.expiredAccessToken "token expired") else .ok sampleUser

/-- `baseEnv` whose `getUser` reports an expired access token on the state
path. -/
def envExpired : Env := { baseEnv with getUser := expiredStateGetUser }

/-- `baseEnv` whose `getUser` always throws a generic error. -/
def envUserError : Env := { baseEnv with getUser := fun _ _ => .error (.other "boom") }

/-- `baseEnv` whose token invalidation throws. -/
def envInvalidateError : Env := { baseEnv with invalidate := fun _ => .error (.other "inv") }

/-- `baseEnv` whose refresh returns `null` (both tokens expired). -/
def envRefreshNull : Env := { baseEnv with refresh := fun _ => .ok none }

/-- `baseEnv` whose refresh returns `null` and whose `samlPrepare` throws. -/
def envRefreshNullPrepError : Env := { envRefreshNull with
  samlPrepare := fun _ => .error (.other "prep") }

/-- `envRefreshNullPrepError` whose `getUser` reports an expired access
token on the state path. -/
def envExpiredRefreshNullPrepError : Env := { envRefreshNullPrepError with
  getUser := expiredStateGetUser }

/-- A session state with an access token and a refresh token. -/
def stateAccessRefresh : ProviderState := { accessToken := some "t", refreshToken := some "rt" }

/-- `envExpired` whose `samlPrepare` throws. -/
def envExpiredPrepError : Env := { envExpired with
  samlPrepare := fun _ => .error (.other "prep") }

/-- `envExpired` that cannot redirect the request. -/
def envExpiredNoRedirect : Env := { envExpired with canRedirectRequest := fun _ => false }

/-- `baseEnv` whose `samlLogout` throws. -/
def envLogoutError : Env := { baseEnv with samlLogout := fun _ _ => .error (.other "slo") }

/-- A state carrying an access token and a request id but no `nextURL`. -/
def stateMissingNextURL : ProviderState := { accessToken := some "t", requestId := some "r" }

/-- A handshake state with a request id but no `nextURL` and no tokens. -/
def stateOnlyRequestId : ProviderState := { requestId := some "r" }

/-- A complete handshake state. -/
def stateHandshake : ProviderState := { requestId := some "r", nextURL := some "/next" }

/-- A session state with both tokens. -/
def stateTokens : ProviderState := { accessToken := some "oa", refreshToken := some "or" }

/-- A session state with only an access token. -/
def stateAccessOnly : ProviderState := { accessToken := some "t" }

/-- A session state with only a refresh token. -/
def stateRefreshOnly : ProviderState := { refreshToken := some "rt" }

/-- The state produced by a successful assertion exchange in `baseEnv`. -/
def statePair : ProviderState := { accessToken := some "newAT", refreshToken := some "newRT" }

/-- The scheme word of an authorization header value: the prefix before the
first whitespace character, as `split(whitespace)[0]` computes it. -/
def schemeOf (authorization : String) : String :=
  authorization.takeWhile fun c => !c.isWhitespace

/-! Helper lemmas about the header stage. -/

lemma authenticateViaHeader_absent (env : Env) (req : KibanaRequest)
    (h : strTruthy req.authorizationHeader = false) :
    authenticateViaHeader env req = (.notHandled, false) := by
  unfold authenticateViaHeader
  simp [h]

lemma authenticateViaHeader_wrong_scheme (env : Env) (req : KibanaRequest)
    (htru : strTruthy req.authorizationHeader = true)
    (hsch : (schemeOf (req.authorizationHeader.getD "")).toLower ≠ "bearer") :
    authenticateViaHeader env req = (.notHandled, true) := by
  unfold authenticateViaHeader schemeOf at *
  simp [htru, hsch]

lemma authenticateViaHeader_bearer (env : Env) (req : KibanaRequest)
    (htru : strTruthy req.authorizationHeader = true)
    (hsch : (schemeOf (req.authorizationHeader.getD "")).toLower = "bearer") :
    authenticateViaHeader env req =
      ((match env.getUser req none with
        | .ok user => .succeeded user none none
        | .error err => .failed err), false) := by
  unfold authenticateViaHeader schemeOf at *
  simp [htru, hsch]
  cases env.getUser req none <;> rfl

/-- Claim C1: in `authenticate`, a present Authorization header whose
scheme word matches `bearer` case-insensitively (e.g. `BEARER`) is treated
as the bearer scheme — the chain result is exactly the header-based
outcome of `getUser` — while any other scheme word makes `authenticate`
return `notHandled` immediately, without attempting the state, refresh or
handshake strategies. -/
theorem claim1_authenticate_header_scheme (env : Env) (req : KibanaRequest)
    (state : Option ProviderState)
    (htru : strTruthy req.authorizationHeader = true) :
    ((schemeOf (req.authorizationHeader.getD "")).toLower = "bearer" →
      authenticate env req state =
        (match env.getUser req none with
         | .ok user => .succeeded user none none
         | .error err => .failed err)) ∧
    ((schemeOf (req.authorizationHeader.getD "")).toLower ≠ "bearer" →
      authenticate env req state = .notHandled) := by
  constructor
  · intro hsch
    unfold authenticate
    rw [authenticateViaHeader_bearer env req htru hsch]
    cases hget : env.getUser req none <;>
      cases state <;>
        simp [AuthenticationResult.isNotHandled, AuthenticationResult.isExpiredFailure]
  · intro hsch
    unfold authenticate
    rw [authenticateViaHeader_wrong_scheme env req htru hsch]
    rfl

/-- Witness for claim C1 at a concrete upper-case `BEARER` header. -/
theorem claim1_authenticate_header_scheme_witness :
    strTruthy reqBearer.authorizationHeader = true ∧
    (((schemeOf (reqBearer.authorizationHeader.getD "")).toLower = "bearer" →
      authenticate baseEnv reqBearer none =
        (match baseEnv.getUser reqBearer none with
         | .ok user => .succeeded user none none
         | .error err => .failed err)) ∧
     ((schemeOf (reqBearer.authorizationHeader.getD "")).toLower ≠ "bearer" →
      authenticate baseEnv reqBearer none = .notHandled)) :=
  ⟨rfl, claim1_authenticate_header_scheme baseEnv reqBearer none rfl⟩

lemma getD_isEmpty (o : Option String) : (o.getD "").isEmpty = !strTruthy o := by
  cases o
  · rfl
  · simp [strTruthy]

/-- Claim C2 (amended): for every call to `login` with a state present
whose access token is absent (not truthy) and that is missing either
`requestId` or `nextURL` (but not both), `login` returns `failed` with the
bad-request error. -/
theorem claim2_login_malformed_state (env : Env) (req : KibanaRequest)
    (samlResponse : String) (s : ProviderState)
    (hat : strTruthy s.accessToken = false)
    (hmiss : (strTruthy s.requestId = true ∧ strTruthy s.nextURL = false) ∨
             (strTruthy s.requestId = false ∧ strTruthy s.nextURL = true)) :
    login env req samlResponse (some s) =
      .failed (.badRequest
        "SAML response state does not have corresponding request id or redirect URL.") := by
  have hstate : authenticateViaState env req s = .notHandled := by
    unfold authenticateViaState
    simp [hat]
  have hcond : ((some s : Option ProviderState).isSome = true) ∧
      ((((some s : Option ProviderState).getD {}).requestId.getD "").isEmpty = true ∨
       (((some s : Option ProviderState).getD {}).nextURL.getD "").isEmpty = true) := by
    refine ⟨rfl, ?_⟩
    rcases hmiss with ⟨_, h2⟩ | ⟨h1, _⟩
    · right
      simp [getD_isEmpty, h2]
    · left
      simp [getD_isEmpty, h1]
  unfold login
  simp only [hstate]
  unfold loginWithSAMLResponse
  simp only [AuthenticationResult.isNotHandled, if_pos hcond]
  rfl

/-- Claim C2, counterexample: a state with an access token, a `requestId`
and no `nextURL`, in an environment where user resolution throws a generic
error — `login` returns that generic failure via `authenticateViaState`,
never reaching the malformed-state check, so the result is not a
bad-request failure. -/
theorem claim2_login_malformed_state_counterexample :
    strTruthy stateMissingNextURL.requestId = true ∧
    strTruthy stateMissingNextURL.nextURL = false ∧
    login envUserError req0 "resp" (some stateMissingNextURL) = .failed (.other "boom") ∧
    (login envUserError req0 "resp" (some stateMissingNextURL)).isBadRequestFailure = false :=
  ⟨rfl, rfl, rfl, rfl⟩

/-- Witness for claim C2 (amended) at a concrete tokenless state with a
request id and no redirect URL. -/
theorem claim2_login_malformed_state_witness :
    strTruthy stateOnlyRequestId.accessToken = false ∧
    (strTruthy stateOnlyRequestId.requestId = true ∧
     strTruthy stateOnlyRequestId.nextURL = false) ∧
    login baseEnv req0 "resp" (some stateOnlyRequestId) =
      .failed (.badRequest
        "SAML response state does not have corresponding request id or redirect URL.") :=
  ⟨rfl, ⟨rfl, rfl⟩,
    claim2_login_malformed_state baseEnv req0 "resp" stateOnlyRequestId rfl
      (Or.inl ⟨rfl, rfl⟩)⟩

/-- Claim C3: in `loginWithNewSAMLResponse`, once the exchange has
produced a new state and the new user has been resolved, a failing
invalidation of the old session token pair makes the whole function
return `failed` with that error: the user comparison is never reached and
no result carrying the new state is committed. -/
theorem claim3_invalidation_failure_short_circuits (env : Env) (req : KibanaRequest)
    (samlResponse : String) (existingState : ProviderState) (user : AuthenticatedUser)
    (ns : ProviderState) (nu : AuthenticatedUser) (e : Err)
    (hpay : (loginWithSAMLResponse env req samlResponse none).isFailed = false)
    (hst : (loginWithSAMLResponse env req samlResponse none).stateOf = some ns)
    (hnu : (authenticateViaState env req ns).userOf = some nu)
    (hinv : env.invalidate
        { accessToken := existingState.accessToken.getD "",
          refreshToken := existingState.refreshToken.getD "" } = .error e) :
    loginWithNewSAMLResponse env req samlResponse existingState user = .failed e := by
  simp only [loginWithNewSAMLResponse]
  cases hp : loginWithSAMLResponse env req samlResponse none with
  | notHandled =>
      rw [hp] at hst
      simp [AuthenticationResult.stateOf] at hst
  | failed e0 =>
      rw [hp] at hpay
      simp [AuthenticationResult.isFailed] at hpay
  | succeeded u ah st =>
      rw [hp] at hst
      simp only [AuthenticationResult.stateOf] at hst
      subst hst
      cases hq : authenticateViaState env req ns with
      | notHandled => rw [hq] at hnu; simp [AuthenticationResult.userOf] at hnu
      | failed e1 => rw [hq] at hnu; simp [AuthenticationResult.userOf] at hnu
      | redirectTo url st1 => rw [hq] at hnu; simp [AuthenticationResult.userOf] at hnu
      | succeeded u1 ah1 st1 =>
          rw [hq] at hnu
          simp only [AuthenticationResult.userOf, Option.some.injEq] at hnu
          subst hnu
          simp [AuthenticationResult.isFailed, AuthenticationResult.shouldUpdateState,
            AuthenticationResult.stateOf, AuthenticationResult.userOf, hq, hinv]
  | redirectTo url st =>
      rw [hp] at hst
      simp only [AuthenticationResult.stateOf] at hst
      subst hst
      cases hq : authenticateViaState env req ns with
      | notHandled => rw [hq] at hnu; simp [AuthenticationResult.userOf] at hnu
      | failed e1 => rw [hq] at hnu; simp [AuthenticationResult.userOf] at hnu
      | redirectTo url1 st1 => rw [hq] at hnu; simp [AuthenticationResult.userOf] at hnu
      | succeeded u1 ah1 st1 =>
          rw [hq] at hnu
          simp only [AuthenticationResult.userOf, Option.some.injEq] at hnu
          subst hnu
          simp [AuthenticationResult.isFailed, AuthenticationResult.shouldUpdateState,
            AuthenticationResult.stateOf, AuthenticationResult.userOf, hq, hinv]

/-- Witness for claim C3: in `envInvalidateError` every step up to
invalidation succeeds and invalidation throws. -/
theorem claim3_invalidation_failure_short_circuits_witness :
    (loginWithSAMLResponse envInvalidateError req0 "resp" none).isFailed = false ∧
    (loginWithSAMLResponse envInvalidateError req0 "resp" none).stateOf = some statePair ∧
    (authenticateViaState envInvalidateError req0 statePair).userOf = some sampleUser ∧
    envInvalidateError.invalidate
      { accessToken := stateTokens.accessToken.getD "",
        refreshToken := stateTokens.refreshToken.getD "" } = .error (.other "inv") ∧
    loginWithNewSAMLResponse envInvalidateError req0 "resp" stateTokens otherUser =
      .failed (.other "inv") :=
  ⟨rfl, rfl, rfl, rfl,
    claim3_invalidation_failure_short_circuits envInvalidateError req0 "resp" stateTokens
      otherUser statePair sampleUser (.other "inv") rfl rfl rfl rfl⟩

/-- Claim C5: in `loginWithNewSAMLResponse`, after a successful exchange,
user resolution and old-token invalidation: a mismatch of username or
realm name between the new and old users yields a redirect to the
overwritten_session page carrying the new state, and a match yields
exactly the plain exchange result. -/
theorem claim5_user_comparison (env : Env) (req : KibanaRequest)
    (samlResponse : String) (existingState : ProviderState) (user : AuthenticatedUser)
    (ns : ProviderState) (nu : AuthenticatedUser)
    (hpay : (loginWithSAMLResponse env req samlResponse none).isFailed = false)
    (hst : (loginWithSAMLResponse env req samlResponse none).stateOf = some ns)
    (hnu : (authenticateViaState env req ns).userOf = some nu)
    (hinv : env.invalidate
        { accessToken := existingState.accessToken.getD "",
          refreshToken := existingState.refreshToken.getD "" } = .ok ()) :
    ((nu.username ≠ user.username ∨
        nu.authentication_realm.name ≠ user.authentication_realm.name) →
      loginWithNewSAMLResponse env req samlResponse existingState user =
        .redirectTo (env.basePath req ++ "/overwritten_session") (some ns)) ∧
    ((nu.username = user.username ∧
        nu.authentication_realm.name = user.authentication_realm.name) →
      loginWithNewSAMLResponse env req samlResponse existingState user =
        loginWithSAMLResponse env req samlResponse none) := by
  simp only [loginWithNewSAMLResponse]
  cases hp : loginWithSAMLResponse env req samlResponse none with
  | notHandled =>
      rw [hp] at hst
      simp [AuthenticationResult.stateOf] at hst
  | failed e0 =>
      rw [hp] at hpay
      simp [AuthenticationResult.isFailed] at hpay
  | succeeded u ah st =>
      rw [hp] at hst
      simp only [AuthenticationResult.stateOf] at hst
      subst hst
      cases hq : authenticateViaState env req ns with
      | notHandled => rw [hq] at hnu; simp [AuthenticationResult.userOf] at hnu
      | failed e1 => rw [hq] at hnu; simp [AuthenticationResult.userOf] at hnu
      | redirectTo url1 st1 => rw [hq] at hnu; simp [AuthenticationResult.userOf] at hnu
      | succeeded u1 ah1 st1 =>
          rw [hq] at hnu
          simp only [AuthenticationResult.userOf, Option.some.injEq] at hnu
          subst hnu
          constructor
          · intro hne
            simp [AuthenticationResult.isFailed, AuthenticationResult.shouldUpdateState,
              AuthenticationResult.stateOf, AuthenticationResult.userOf, hq, hinv, if_pos hne]
          · intro heq
            have hcond : ¬(u1.username ≠ user.username ∨
                u1.authentication_realm.name ≠ user.authentication_realm.name) := by
              push_neg
              exact heq
            simp [AuthenticationResult.isFailed, AuthenticationResult.shouldUpdateState,
              AuthenticationResult.stateOf, AuthenticationResult.userOf, hq, hinv,
              if_neg hcond]
  | redirectTo url st =>
      rw [hp] at hst
      simp only [AuthenticationResult.stateOf] at hst
      subst hst
      cases hq : authenticateViaState env req ns with
      | notHandled => rw [hq] at hnu; simp [AuthenticationResult.userOf] at hnu
      | failed e1 => rw [hq] at hnu; simp [AuthenticationResult.userOf] at hnu
      | redirectTo url1 st1 => rw [hq] at hnu; simp [AuthenticationResult.userOf] at hnu
      | succeeded u1 ah1 st1 =>
          rw [hq] at hnu
          simp only [AuthenticationResult.userOf, Option.some.injEq] at hnu
          subst hnu
          constructor
          · intro hne
            simp [AuthenticationResult.isFailed, AuthenticationResult.shouldUpdateState,
              AuthenticationResult.stateOf, AuthenticationResult.userOf, hq, hinv, if_pos hne]
          · intro heq
            have hcond : ¬(u1.username ≠ user.username ∨
                u1.authentication_realm.name ≠ user.authentication_realm.name) := by
              push_neg
              exact heq
            simp [AuthenticationResult.isFailed, AuthenticationResult.shouldUpdateState,
              AuthenticationResult.stateOf, AuthenticationResult.userOf, hq, hinv,
              if_neg hcond]

/-- Witness for claim C5: in `baseEnv` every step succeeds; the new user
`sampleUser` differs from the old user `otherUser` by username, so the
result is the overwritten-session redirect carrying the new state. -/
theorem claim5_user_comparison_witness :
    (loginWithSAMLResponse baseEnv req0 "resp" none).isFailed = false ∧
    (loginWithSAMLResponse baseEnv req0 "resp" none).stateOf = some statePair ∧
    (authenticateViaState baseEnv req0 statePair).userOf = some sampleUser ∧
    baseEnv.invalidate
      { accessToken := stateTokens.accessToken.getD "",
        refreshToken := stateTokens.refreshToken.getD "" } = .ok () ∧
    (sampleUser.username ≠ otherUser.username ∨
      sampleUser.authentication_realm.name ≠ otherUser.authentication_realm.name) ∧
    loginWithNewSAMLResponse baseEnv req0 "resp" stateTokens otherUser =
      .redirectTo (baseEnv.basePath req0 ++ "/overwritten_session") (some statePair) :=
  ⟨rfl, rfl, rfl, rfl, Or.inl (by decide),
    (claim5_user_comparison baseEnv req0 "resp" stateTokens otherUser statePair sampleUser
      rfl rfl rfl rfl).1 (Or.inl (by decide))⟩

/-- Claim C4 (amended): in `authenticateViaRefreshToken`, when the refresh
of the stored refresh token returns null (both tokens expired): if the
request cannot be redirected the result is `failed(badRequest)`; if it can
be redirected the result is the full fresh-handshake outcome — it equals
`authenticateViaHandshake`, and is the handshake redirect whenever the
`samlPrepare` call succeeds (it is `failed` with the prepare error when
that call throws). -/
theorem claim4_refresh_null_outcome (env : Env) (req : KibanaRequest) (s : ProviderState)
    (hrt : strTruthy s.refreshToken = true)
    (hnull : env.refresh (s.refreshToken.getD "") = .ok none) :
    (env.canRedirectRequest req = false →
      authenticateViaRefreshToken env req s =
        .failed (.badRequest "Both access and refresh tokens are expired.")) ∧
    (env.canRedirectRequest req = true →
      authenticateViaRefreshToken env req s = authenticateViaHandshake env req ∧
      ∀ res : SamlPrepareResult, env.samlPrepare (realmOrACSPayload env req) = .ok res →
        authenticateViaRefreshToken env req s =
          .redirectTo res.redirect
            (some { requestId := some res.id,
                    nextURL := some (env.basePath req ++ req.urlPath) })) := by
  unfold authenticateViaRefreshToken
  simp only [hrt, hnull, Bool.not_true, Bool.false_eq_true, if_false]
  constructor
  · intro hcr
    simp [hcr]
  · intro hcr
    refine ⟨by simp [hcr], ?_⟩
    intro res hres
    unfold authenticateViaHandshake
    simp [hcr, hres]

/-- Claim C4, counterexample: refresh returns null, the request can be
redirected, and `samlPrepare` throws — the result is a failure, not a
handshake redirect. -/
theorem claim4_refresh_null_counterexample :
    envRefreshNullPrepError.canRedirectRequest req0 = true ∧
    envRefreshNullPrepError.refresh (stateRefreshOnly.refreshToken.getD "") = .ok none ∧
    authenticateViaRefreshToken envRefreshNullPrepError req0 stateRefreshOnly =
      .failed (.other "prep") ∧
    envExpiredRefreshNullPrepError.canRedirectRequest req0 = true ∧
    envExpiredRefreshNullPrepError.refresh
      (stateAccessRefresh.refreshToken.getD "") = .ok none ∧
    authenticate envExpiredRefreshNullPrepError req0 (some stateAccessRefresh) =
      .failed (.other "prep") :=
  ⟨rfl, rfl, rfl, rfl, rfl, rfl⟩

/-- Witness for claim C4 (amended) in `envRefreshNull`, where refresh
returns null and `samlPrepare` succeeds. -/
theorem claim4_refresh_null_outcome_witness :
    strTruthy stateRefreshOnly.refreshToken = true ∧
    envRefreshNull.refresh (stateRefreshOnly.refreshToken.getD "") = .ok none ∧
    ((envRefreshNull.canRedirectRequest req0 = false →
      authenticateViaRefreshToken envRefreshNull req0 stateRefreshOnly =
        .failed (.badRequest "Both access and refresh tokens are expired.")) ∧
     (envRefreshNull.canRedirectRequest req0 = true →
      authenticateViaRefreshToken envRefreshNull req0 stateRefreshOnly =
        authenticateViaHandshake envRefreshNull req0 ∧
      ∀ res : SamlPrepareResult,
        envRefreshNull.samlPrepare (realmOrACSPayload envRefreshNull req0) = .ok res →
        authenticateViaRefreshToken envRefreshNull req0 stateRefreshOnly =
          .redirectTo res.redirect
            (some { requestId := some res.id,
                    nextURL := some (envRefreshNull.basePath req0 ++ req0.urlPath) }))) :=
  ⟨rfl, rfl, claim4_refresh_null_outcome envRefreshNull req0 stateRefreshOnly rfl rfl⟩

/-- Claim C6: in `loginWithSAMLResponse`, every successful assertion
exchange yields `redirectTo` with target the state's `nextURL` when
present and the default root under the base path otherwise, carrying a
state of exactly the new token pair with `requestId` and `nextURL`
dropped. -/
theorem claim6_exchange_success_redirect (env : Env) (req : KibanaRequest)
    (samlResponse : String) (state : Option ProviderState) (pair : TokenPair)
    (hok : ¬(state.isSome = true ∧
        ((((state.getD {}).requestId.getD "").isEmpty = true) ∨
         (((state.getD {}).nextURL.getD "").isEmpty = true))))
    (hex : env.samlAuthenticate
        (if ((state.getD {}).requestId.getD "").isEmpty then []
         else [(state.getD {}).requestId.getD ""]) samlResponse = .ok pair) :
    loginWithSAMLResponse env req samlResponse state =
      .redirectTo
        (if ((state.getD {}).nextURL.getD "").isEmpty then env.basePath req ++ "/"
         else (state.getD {}).nextURL.getD "")
        (some { accessToken := some pair.accessToken,
                refreshToken := some pair.refreshToken,
                requestId := none, nextURL := none }) := by
  simp only [loginWithSAMLResponse]
  rw [if_neg hok, hex]

/-- Witness for claim C6 at a complete handshake state: the redirect
target is the stored `nextURL` and the state collapses to the token pair. -/
theorem claim6_exchange_success_redirect_witness :
    ¬((some stateHandshake : Option ProviderState).isSome = true ∧
        (((((some stateHandshake : Option ProviderState).getD {}).requestId.getD
            "").isEmpty = true) ∨
         ((((some stateHandshake : Option ProviderState).getD {}).nextURL.getD
            "").isEmpty = true))) ∧
    baseEnv.samlAuthenticate
      (if (((some stateHandshake : Option ProviderState).getD {}).requestId.getD
          "").isEmpty then []
       else [((some stateHandshake : Option ProviderState).getD {}).requestId.getD ""])
      "resp" = .ok ⟨"newAT", "newRT"⟩ ∧
    loginWithSAMLResponse baseEnv req0 "resp" (some stateHandshake) =
      .redirectTo
        (if (((some stateHandshake : Option ProviderState).getD {}).nextURL.getD
            "").isEmpty then baseEnv.basePath req0 ++ "/"
         else ((some stateHandshake : Option ProviderState).getD {}).nextURL.getD "")
        (some { accessToken := some "newAT", refreshToken := some "newRT",
                requestId := none, nextURL := none }) :=
  ⟨by decide, rfl,
    claim6_exchange_success_redirect baseEnv req0 "resp" (some stateHandshake)
      ⟨"newAT", "newRT"⟩ (by decide) rfl⟩

/-- Claim C7: in `authenticate`, when the header stage does not handle the
request and state-based authentication fails, the refresh stage is
attempted if and only if the failure is the expired-access-token error;
any other failure is returned as-is. -/
theorem claim7_expired_access_token_gate (env : Env) (req : KibanaRequest)
    (s : ProviderState) (e : Err)
    (hhdr : strTruthy req.authorizationHeader = false)
    (hfail : authenticateViaState env req s = .failed e) :
    authenticate env req (some s) =
      (if isAccessTokenExpiredError e then
        (if (authenticateViaRefreshToken env req s).isNotHandled then
          authenticateViaHandshake env req
        else authenticateViaRefreshToken env req s)
      else .failed e) := by
  unfold authenticate
  rw [authenticateViaHeader_absent env req hhdr]
  simp only [hfail]
  cases hexp : isAccessTokenExpiredError e <;>
    simp [hexp, AuthenticationResult.isNotHandled, AuthenticationResult.isExpiredFailure]

/-- Witness for claim C7 in `envExpired`, where state authentication fails
with the expired-access-token error. -/
theorem claim7_expired_access_token_gate_witness :
    strTruthy req0.authorizationHeader = false ∧
    authenticateViaState envExpired req0 stateAccessOnly =
      .failed (.expiredAccessToken "token expired") ∧
    authenticate envExpired req0 (some stateAccessOnly) =
      (if isAccessTokenExpiredError (.expiredAccessToken "token expired") then
        (if (authenticateViaRefreshToken envExpired req0 stateAccessOnly).isNotHandled then
          authenticateViaHandshake envExpired req0
        else authenticateViaRefreshToken envExpired req0 stateAccessOnly)
      else .failed (.expiredAccessToken "token expired")) :=
  ⟨rfl, rfl,
    claim7_expired_access_token_gate envExpired req0 stateAccessOnly
      (.expiredAccessToken "token expired") rfl rfl⟩

/-- Claim C8: `logout` returns `notHandled` if and only if the state has
no (truthy) access token and the request query has no `SAMLRequest`
parameter; otherwise, on a non-throwing single-logout path, it returns
`redirectTo` the exact non-null redirect URL the single-logout call
produced, or `redirectTo` the fixed `/logged_out` path when that URL is
null. -/
theorem claim8_logout_dispatch (env : Env) (req : KibanaRequest)
    (state : Option ProviderState) :
    (logout env req state = .notHandled ↔ hasNothingToInvalidate req state = true) ∧
    (hasNothingToInvalidate req state = false →
      (∀ u, logoutRedirect env req state = .ok (some u) →
        logout env req state = .redirectTo u) ∧
      (logoutRedirect env req state = .ok none →
        logout env req state = .redirectTo "/logged_out")) := by
  cases hg : hasNothingToInvalidate req state with
  | true =>
      constructor
      · simp [logout, hg]
      · intro hgf
        simp [hg] at hgf
  | false =>
      constructor
      · constructor
        · intro h
          exfalso
          unfold logout at h
          rw [hg] at h
          simp only [Bool.false_eq_true, if_false] at h
          cases hr : logoutRedirect env req state with
          | ok o =>
              rw [hr] at h
              cases o <;> simp at h
          | error e =>
              rw [hr] at h
              simp at h
        · intro hgt
          exact absurd hgt (by simp [hg])
      · intro _
        constructor
        · intro u hr
          unfold logout
          rw [hg, hr]
          rfl
        · intro hr
          unfold logout
          rw [hg, hr]
          rfl

/-- Witness for claim C8 at a state with an access token in `baseEnv`,
whose single logout produces a non-null redirect URL. -/
theorem claim8_logout_dispatch_witness :
    hasNothingToInvalidate req0 (some stateTokens) = false ∧
    logoutRedirect baseEnv req0 (some stateTokens) = .ok (some "https://idp/slo") ∧
    logout baseEnv req0 (some stateTokens) = .redirectTo "https://idp/slo" :=
  ⟨rfl, rfl,
    ((claim8_logout_dispatch baseEnv req0 (some stateTokens)).2 rfl).1
      "https://idp/slo" rfl⟩

/-- Claim C9: whenever `logout` actually runs a single-logout path (the
not-handled guard does not fire) and that path throws, the error is caught
and converted into a `failed` deauthentication result carrying that error —
no exception escapes `logout`, which is total in this embedding. -/
theorem claim9_logout_error_conversion (env : Env) (req : KibanaRequest)
    (state : Option ProviderState) (e : Err)
    (hg : hasNothingToInvalidate req state = false)
    (herr : logoutRedirect env req state = .error e) :
    logout env req state = .failed e := by
  unfold logout
  rw [hg, herr]
  rfl

/-- Witness for claim C9 in `envLogoutError`, where the user-initiated
single logout throws. -/
theorem claim9_logout_error_conversion_witness :
    hasNothingToInvalidate req0 (some stateTokens) = false ∧
    logoutRedirect envLogoutError req0 (some stateTokens) = .error (.other "slo") ∧
    logout envLogoutError req0 (some stateTokens) = .failed (.other "slo") :=
  ⟨rfl, rfl,
    claim9_logout_error_conversion envLogoutError req0 (some stateTokens)
      (.other "slo") rfl rfl⟩

/-- Claim C10 (amended): in `authenticate`, when state authentication
fails with the expired-access-token error but the state has no (truthy)
refresh token, the refresh strategy returns `notHandled` rather than
failing, so the chain falls through to the handshake stage: the overall
result equals `authenticateViaHandshake` (a handshake redirect when the
prepare call succeeds, its failure otherwise), and is `notHandled` for
non-redirectable requests. -/
theorem claim10_missing_refresh_token_fallthrough (env : Env) (req : KibanaRequest)
    (s : ProviderState) (e : Err)
    (hhdr : strTruthy req.authorizationHeader = false)
    (hfail : authenticateViaState env req s = .failed e)
    (hexp : isAccessTokenExpiredError e = true)
    (hrt : strTruthy s.refreshToken = false) :
    authenticateViaRefreshToken env req s = .notHandled ∧
    authenticate env req (some s) = authenticateViaHandshake env req ∧
    (env.canRedirectRequest req = false → authenticate env req (some s) = .notHandled) := by
  have href : authenticateViaRefreshToken env req s = .notHandled := by
    unfold authenticateViaRefreshToken
    simp [hrt]
  have hmain : authenticate env req (some s) = authenticateViaHandshake env req := by
    unfold authenticate
    rw [authenticateViaHeader_absent env req hhdr]
    simp only [hfail, href]
    simp [AuthenticationResult.isExpiredFailure, AuthenticationResult.isNotHandled, hexp]
  refine ⟨href, hmain, ?_⟩
  intro hcr
  rw [hmain]
  unfold authenticateViaHandshake
  simp [hcr]

/-- Claim C10, counterexample to the unamended reading: with a
redirectable request, an expired-access-token state failure, no refresh
token, and a throwing `samlPrepare`, the chain result is a failure, not a
handshake redirect. -/
theorem claim10_missing_refresh_token_counterexample :
    envExpiredPrepError.canRedirectRequest req0 = true ∧
    strTruthy stateAccessOnly.refreshToken = false ∧
    authenticateViaState envExpiredPrepError req0 stateAccessOnly =
      .failed (.expiredAccessToken "token expired") ∧
    authenticate envExpiredPrepError req0 (some stateAccessOnly) =
      .failed (.other "prep") ∧
    (authenticate envExpiredPrepError req0 (some stateAccessOnly)).isRedirected = false :=
  ⟨rfl, rfl, rfl, rfl, rfl⟩

/-- Witness for claim C10 (amended) in `envExpired`. -/
theorem claim10_missing_refresh_token_fallthrough_witness :
    strTruthy req0.authorizationHeader = false ∧
    authenticateViaState envExpired req0 stateAccessOnly =
      .failed (.expiredAccessToken "token expired") ∧
    isAccessTokenExpiredError (.expiredAccessToken "token expired") = true ∧
    strTruthy stateAccessOnly.refreshToken = false ∧
    (authenticateViaRefreshToken envExpired req0 stateAccessOnly = .notHandled ∧
     authenticate envExpired req0 (some stateAccessOnly) =
       authenticateViaHandshake envExpired req0 ∧
     (envExpired.canRedirectRequest req0 = false →
       authenticate envExpired req0 (some stateAccessOnly) = .notHandled)) :=
  ⟨rfl, rfl, rfl, rfl,
    claim10_missing_refresh_token_fallthrough envExpired req0 stateAccessOnly
      (.expiredAccessToken "token expired") rfl rfl rfl rfl⟩

end Saml
